import Mathlib

/-
Verification of the schedule-matching and departure-monitoring engine of
lirr-checker, a Node.js service that reconciles a static GTFS timetable
against a real-time delay feed and announces the status of watched
departures.

The development shallowly embeds the relevant JavaScript source:
  * lib/gtfs-static.js   — schedule index, calendar evaluation, trip search
  * lib/gtfs-realtime.js — delay lookup and delay formatting
  * index.js             — the per-cycle monitoring loop and its state

JavaScript numbers that hold whole quantities (seconds, milliseconds,
YYYYMMDD dates, stop sequences) are modelled as Nat/Int.  JavaScript
objects used as string-keyed maps are modelled as association lists that
keep insertion order, matching Object.entries / Object.keys iteration.
-/

namespace LirrChecker

/-! ### Small helpers shared by index.js and lib/gtfs-static.js -/

/-- Split a character list on a separator character (the pieces of
JS `str.split(sep)`, as character lists). -/
def splitOnChar (sep : Char) : List Char → List (List Char)
  | [] => [[]]
  | c :: rest =>
    let r := splitOnChar sep rest
    if c == sep then [] :: r
    else
      match r with
      | [] => [[c]]
      | h :: t => (c :: h) :: t

/-- Decimal value of a digit list (well-formedness checked by the caller). -/
def digitsVal (l : List Char) : Nat := l.foldl (fun a c => a * 10 + (c.toNat - 48)) 0

/-- Numeric parse of one component, `Number(str)` on a well-formed
decimal numeral.  (JS yields NaN on malformed input; all inputs in the
program are well-formed numerals, malformed ones default to 0 here.) -/
def numOr0 (l : List Char) : Nat :=
  if !l.isEmpty && l.all Char.isDigit then digitsVal l else 0

/-- `timeSecs` from index.js (textually identical to `gtfsTimeSecs` in
lib/gtfs-static.js): split "HH:MM" / "HH:MM:SS" on ':' and convert to
seconds past midnight; a missing seconds field counts as 0 (`s || 0`).
GTFS times may exceed 24:00:00, so the result can exceed 86400. -/
def timeSecs (str : String) : Nat :=
  let parts := (splitOnChar ':' str.toList).map numOr0
  parts.getD 0 0 * 3600 + parts.getD 1 0 * 60 + parts.getD 2 0

/-- `gtfsTimeSecs` from lib/gtfs-static.js; same code as `timeSecs`. -/
def gtfsTimeSecs (str : String) : Nat := timeSecs str

/-- Zero-padded two-digit rendering of a minutes value. -/
def pad2 (n : Nat) : String := (if n < 10 then "0" else "") ++ toString n

/-- `dayjs(str, 'HH:mm:ss').format('h:mm A')` as used on a scheduled
departure string in index.js.  Hours ≥ 24 do not parse as a time of day
(dayjs yields an invalid date, rendered "Invalid Date"). -/
def formatHMA (str : String) : String :=
  let parts := (splitOnChar ':' str.toList).map numOr0
  let h := parts.getD 0 0
  let m := parts.getD 1 0
  if 24 ≤ h then "Invalid Date"
  else
    let h12 := if h % 12 = 0 then 12 else h % 12
    let ampm := if h < 12 then "AM" else "PM"
    toString h12 ++ ":" ++ pad2 m ++ " " ++ ampm

/-- ASCII lower-casing of one character (`String.prototype.toLowerCase`
restricted to the ASCII names the data contains). -/
def lowerChar (c : Char) : Char :=
  if 65 ≤ c.toNat && c.toNat ≤ 90 then Char.ofNat (c.toNat + 32) else c

/-- JS `str.toLowerCase()` (ASCII range). -/
def strToLower (s : String) : String := String.mk (s.toList.map lowerChar)

/-- Does `needle` occur at the head of `hay`? (helper for substring test). -/
def leadMatch : List Char → List Char → Bool
  | [], _ => true
  | _ :: _, [] => false
  | a :: as, b :: bs => a == b && leadMatch as bs

/-- Does `needle` occur anywhere in `hay`? (helper for substring test). -/
def hasSub (needle : List Char) : List Char → Bool
  | [] => needle.isEmpty
  | b :: bs => leadMatch needle (b :: bs) || hasSub needle bs

/-- JS `hay.includes(needle)` on strings: substring containment. -/
def strIncludes (hay needle : String) : Bool := hasSub needle.toList hay.toList

/-- JS `str.endsWith(suf)`: the reversed string starts with the reversed
suffix. -/
def strEndsWith (s suf : String) : Bool :=
  leadMatch suf.toList.reverse s.toList.reverse

/-- Lexicographic comparison of character lists (helper for `strLt`). -/
def listLtChar : List Char → List Char → Bool
  | [], [] => false
  | [], _ :: _ => true
  | _ :: _, [] => false
  | a :: as, b :: bs => if a < b then true else if b < a then false else listLtChar as bs

/-- JS `a < b` on strings: lexicographic comparison by code unit. -/
def strLt (a b : String) : Bool := listLtChar a.toList b.toList

/-- JS `results.join('\n')`. -/
def joinNewline : List String → String
  | [] => ""
  | [x] => x
  | x :: xs => x ++ "\n" ++ joinNewline xs

/-- Assignment `obj[k] = v` on a JS object modelled as an association
list: replace the first binding of `k`, else append a new binding
(insertion order of `Object.keys` is preserved). -/
def setA {α : Type} (l : List (String × α)) (k : String) (v : α) : List (String × α) :=
  match l with
  | [] => [(k, v)]
  | (k', v') :: rest => if k' == k then (k, v) :: rest else (k', v') :: setA rest k v

/-! ### Static GTFS data model (lib/gtfs-static.js) -/

/-- One row of stops.txt (the fields the program reads). -/
structure Stop where
  stop_id : String
  stop_name : String
deriving DecidableEq, Repr

/-- One row of stop_times.txt (the fields the program reads).  The
`stop_sequence` CSV field is converted with `Number(...)` where used. -/
structure StopTime where
  trip_id : String
  stop_id : String
  stop_sequence : Nat
  arrival_time : String
  departure_time : String
deriving DecidableEq, Repr

/-- One row of trips.txt (the fields the program reads). -/
structure GtfsTrip where
  trip_id : String
  service_id : String
deriving DecidableEq, Repr

/-- Day-of-week name as produced by `dayjs().format('dddd').toLowerCase()`. -/
inductive Weekday where
  | monday | tuesday | wednesday | thursday | friday | saturday | sunday
deriving DecidableEq, Repr

/-- One row of calendar.txt: weekday flags are the raw CSV strings
(the code compares them with `=== '1'`), dates are YYYYMMDD values.
YYYYMMDD strings are fixed-width digit strings, so the code's
lexicographic string comparison coincides with numeric comparison; they
are modelled as Nat. -/
structure Calendar where
  service_id : String
  monday : String
  tuesday : String
  wednesday : String
  thursday : String
  friday : String
  saturday : String
  sunday : String
  start_date : Nat
  end_date : Nat
deriving DecidableEq, Repr

/-- `cal[dayName]` for a weekday name. -/
def Calendar.dayFlag (c : Calendar) : Weekday → String
  | .monday => c.monday
  | .tuesday => c.tuesday
  | .wednesday => c.wednesday
  | .thursday => c.thursday
  | .friday => c.friday
  | .saturday => c.saturday
  | .sunday => c.sunday

/-- One row of calendar_dates.txt; `exception_type` is the raw CSV string
(the code compares it with `=== '1'`, the "added" flag). -/
structure CalendarDate where
  service_id : String
  date : Nat
  exception_type : String
deriving DecidableEq, Repr

/-- The in-memory index built by `loadStaticGtfs`: string-keyed JS
objects become association lists in insertion order. -/
structure GtfsData where
  stopsByName : List (String × List Stop)
  stopsById : List (String × Stop)
  stopTimesByTrip : List (String × List StopTime)
  tripsById : List (String × GtfsTrip)
  calByService : List (String × Calendar)
  calDatesByService : List (String × List CalendarDate)
deriving DecidableEq, Repr

/-- The evaluation date: `dayjs()` inside `isServiceActive` formatted as
YYYYMMDD (modelled as Nat, see `Calendar`) and as a lowercase weekday
name.  The code reads the ambient clock; the embedding passes it in. -/
structure Today where
  dateNum : Nat
  dayName : Weekday
deriving DecidableEq, Repr

/-- The exception list consulted by `isServiceActive`
(`gtfsData.calDatesByService[serviceId] || []`). -/
def exceptionsFor (serviceId : String) (g : GtfsData) : List CalendarDate :=
  (List.lookup serviceId g.calDatesByService).getD []

/-- `isServiceActive(serviceId, gtfsData)` from lib/gtfs-static.js:
the first calendar exception dated today is authoritative; otherwise a
missing calendar row means inactive; otherwise the date must lie in
[start_date, end_date] and today's weekday flag must be '1'. -/
def isServiceActive (serviceId : String) (g : GtfsData) (today : Today) : Bool :=
  match (exceptionsFor serviceId g).find? (fun ex => ex.date == today.dateNum) with
  | some ex => ex.exception_type == "1"
  | none =>
    match List.lookup serviceId g.calByService with
    | none => false
    | some cal =>
      if today.dateNum < cal.start_date || cal.end_date < today.dateNum then false
      else cal.dayFlag today.dayName == "1"

/-- `findStops(query, gtfsData)`: case-insensitive; an exact (lowercased)
name hit returns that stop group, otherwise all groups whose name
contains the query as a substring are concatenated. -/
def findStops (query : String) (g : GtfsData) : List Stop :=
  let lq := strToLower query
  match List.lookup lq g.stopsByName with
  | some stops => stops
  | none => (g.stopsByName.filter (fun p => strIncludes p.fst lq)).map Prod.snd |>.flatten

/-- Stable insertion of a stop-time into a list sorted by
`stop_sequence` (an element is placed before the first strictly larger
sequence, after equal ones encountered later in the fold). -/
def insertBySeq (x : StopTime) : List StopTime → List StopTime
  | [] => [x]
  | y :: ys =>
    if x.stop_sequence ≤ y.stop_sequence then x :: y :: ys else y :: insertBySeq x ys

/-- `sts.slice().sort((a, b) => Number(a.stop_sequence) - Number(b.stop_sequence))`:
a stable ascending sort by stop sequence (JS Array.prototype.sort is
stable). -/
def sortBySeq (sts : List StopTime) : List StopTime := sts.foldr insertBySeq []

/-- The first stop-time whose stop id is in the source set, together
with its index; models `sorted.find(st => srcIds.has(st.stop_id))`
followed by `sorted.indexOf(srcSt)` (the predicate depends only on
`stop_id`, so the index of the found element is the index of the first
predicate match). -/
def findSrcSt (srcIds : List String) : List StopTime → Option (Nat × StopTime)
  | [] => none
  | st :: rest =>
    if srcIds.contains st.stop_id then some (0, st)
    else (findSrcSt srcIds rest).map (fun p => (p.1 + 1, p.2))

/-- The derived record pushed onto `results` in `findMatchingTrips`. -/
structure MatchedTrip where
  tripId : String
  srcStopId : String
  srcStopName : String
  dstStopId : String
  dstStopName : String
  scheduledDep : String
  scheduledArr : String
deriving DecidableEq, Repr

/-- `gtfsData.stopsById[id]?.stop_name || fallback` (an empty stop name
is falsy in JS and also falls back). -/
def nameOr (g : GtfsData) (id fallbackName : String) : String :=
  match List.lookup id g.stopsById with
  | some s => if s.stop_name == "" then fallbackName else s.stop_name
  | none => fallbackName

/-- `DEPARTURE_TOLERANCE = 5 * 60` seconds. -/
def DEPARTURE_TOLERANCE : Nat := 5 * 60

/-- The loop body of `findMatchingTrips` for one `[tripId, sts]` entry of
`Object.entries(stopTimesByTrip)`: sort by sequence, find the first stop
in the source set, require its departure within tolerance of the target,
find a destination-set stop strictly after it, require the trip row to
exist and its service to be active. -/
def matchTrip (source destination : String) (srcIds dstIds : List String) (deptSecs : Int)
    (g : GtfsData) (today : Today) (tripId : String) (sts : List StopTime) :
    Option MatchedTrip :=
  let sorted := sortBySeq sts
  match findSrcSt srcIds sorted with
  | none => none
  | some (i, srcSt) =>
      if DEPARTURE_TOLERANCE < ((gtfsTimeSecs srcSt.departure_time : Int) - deptSecs).natAbs
      then none
      else
        match (sorted.drop (i + 1)).find? (fun st => dstIds.contains st.stop_id) with
        | none => none
        | some dstSt =>
          match List.lookup tripId g.tripsById with
          | none => none
          | some trip =>
            if isServiceActive trip.service_id g today then
              some { tripId := tripId
                     srcStopId := srcSt.stop_id
                     srcStopName := nameOr g srcSt.stop_id source
                     dstStopId := dstSt.stop_id
                     dstStopName := nameOr g dstSt.stop_id destination
                     scheduledDep := srcSt.departure_time
                     scheduledArr := dstSt.arrival_time }
            else none

/-- `findMatchingTrips(source, destination, deptSecs, gtfsData)` from
lib/gtfs-static.js.  Throwing `new Error(...)` on an unknown stop name is
modelled as `Except.error` with the same message text.  The ambient
evaluation date used by `isServiceActive` is passed explicitly. -/
def findMatchingTrips (source destination : String) (deptSecs : Int) (g : GtfsData)
    (today : Today) : Except String (List MatchedTrip) :=
  let srcStops := findStops source g
  let dstStops := findStops destination g
  if srcStops.isEmpty then
    Except.error ("No stops found for \"" ++ source ++ "\"")
  else if dstStops.isEmpty then
    Except.error ("No stops found for \"" ++ destination ++ "\"")
  else
    let srcIds := srcStops.map Stop.stop_id
    let dstIds := dstStops.map Stop.stop_id
    Except.ok (g.stopTimesByTrip.filterMap
      (fun p => matchTrip source destination srcIds dstIds deptSecs g today p.fst p.snd))

/-! ### Real-time feed model (lib/gtfs-realtime.js) -/

/-- One `stopTimeUpdate` element: the code reads
`stu.departure?.delay != null ? stu.departure.delay : (stu.arrival?.delay ?? 0)`,
so for each of departure/arrival only "a non-null delay is present"
matters; that is modelled as one `Option Int` per side. -/
structure StopTimeUpdate where
  stopId : String
  departureDelay : Option Int
  arrivalDelay : Option Int
deriving DecidableEq, Repr

/-- `entity.tripUpdate` with `trip.tripId` flattened in and
`stopTimeUpdate || []` normalised to a plain list. -/
structure TripUpdate where
  tripId : String
  stopTimeUpdate : List StopTimeUpdate
deriving DecidableEq, Repr

/-- One feed entity; `tripUpdate` may be absent. -/
structure FeedEnt where
  tripUpdate : Option TripUpdate
deriving DecidableEq, Repr

/-- A decoded `FeedMessage`. -/
structure Feed where
  entity : List FeedEnt
deriving DecidableEq, Repr

/-- The result object of `getTripDelay`. -/
structure DelayInfo where
  found : Bool
  delay : Int
deriving DecidableEq, Repr

/-- The delay taken from a matching stop-time update: the departure delay
if present (non-null), else the arrival delay, else 0. -/
def stuDelay (stu : StopTimeUpdate) : Int :=
  match stu.departureDelay with
  | some d => d
  | none => stu.arrivalDelay.getD 0

/-- The entity scan of `getTripDelay`: the first entity carrying a trip
update for `tripId` decides the result. -/
def getTripDelayGo (tripId stopId : String) : List FeedEnt → DelayInfo
  | [] => { found := false, delay := 0 }
  | e :: rest =>
    match e.tripUpdate with
    | none => getTripDelayGo tripId stopId rest
    | some tu =>
      if tu.tripId != tripId then getTripDelayGo tripId stopId rest
      else
        match tu.stopTimeUpdate.find? (fun stu => stu.stopId == stopId) with
        | some stu => { found := true, delay := stuDelay stu }
        | none => { found := true, delay := 0 }

/-- `getTripDelay(feed, tripId, stopId)` from lib/gtfs-realtime.js. -/
def getTripDelay (feed : Feed) (tripId stopId : String) : DelayInfo :=
  getTripDelayGo tripId stopId feed.entity

/-- `formatDelay(delaySecs)` from lib/gtfs-realtime.js.
`Math.round(Math.abs(delaySecs) / 60)` rounds a non-negative multiple of
1/60 half-up, which on integers is `(|s| + 30) / 60` in Nat division
(exact: |s|/60 is representable closely enough that the float rounding
agrees for all delay magnitudes the feed can carry). -/
def formatDelay (delaySecs : Int) : String :=
  if delaySecs.natAbs < 60 then "on time"
  else
    let mins := (delaySecs.natAbs + 30) / 60
    let label := toString mins ++ " minute" ++ (if mins != 1 then "s" else "")
    if 0 < delaySecs then label ++ " late" else label ++ " early"

/-! ### Monitoring loop model (index.js) -/

/-- One entry of config.json.  `days` and `users` are optional; a missing
`audio` is falsy, so it is modelled as Bool. -/
structure WatchEntry where
  source : String
  destination : String
  departureTime : String
  days : Option (List String)
  users : Option (List String)
  audio : Bool
deriving DecidableEq, Repr

/-- The `{ success, message }` object returned by `checkDeparture`. -/
structure CheckResult where
  success : Bool
  message : String
deriving DecidableEq, Repr

/-- `checkDeparture(entry, gtfsData)` from index.js: match trips, report
"no scheduled train" on an empty match, otherwise fetch the feed and
format one status line per matched trip, joined with newlines.  The feed
fetch outcome is passed in as `Except` (error carries `err.message`). -/
def checkDeparture (e : WatchEntry) (g : GtfsData) (feed : Except String Feed)
    (today : Today) : CheckResult :=
  match findMatchingTrips e.source e.destination (timeSecs e.departureTime : Int) g today with
  | Except.error err => { success := false, message := "Error finding trips: " ++ err }
  | Except.ok trips =>
    if trips.isEmpty then
      { success := true
        message := "No scheduled train found from " ++ e.source ++ " to " ++
          e.destination ++ " at " ++ e.departureTime ++ " today." }
    else
      match feed with
      | Except.error err =>
        { success := false, message := "Could not fetch real-time data: " ++ err }
      | Except.ok f =>
        let results := trips.map (fun trip =>
          let delayInfo := getTripDelay f trip.tripId trip.srcStopId
          let status := formatDelay delayInfo.delay
          formatHMA trip.scheduledDep ++ " train, from " ++ trip.srcStopName ++
            " to " ++ trip.dstStopName ++ ", is " ++ status ++ ".")
        { success := true, message := joinNewline results }

/-- The ambient clock and calendar readings one poll cycle makes:
`Date.now()` in ms, seconds past midnight, today as a YYYYMMDD string,
today's three-letter weekday (`dayjs().format('ddd').toLowerCase()`),
and the `Today` view used by `isServiceActive`. -/
structure Env where
  nowMs : Nat
  nowSecs : Nat
  todayStr : String
  todayDow : String
  today : Today
deriving Repr

/-- The process-lifetime monitoring state: `snoozeUntil` (ms timestamp or
null), `skipDates` (YYYYMMDD strings), `lastChecked` and `checkResults`
(objects keyed by departure key). -/
structure MonitorState where
  snoozeUntil : Option Nat
  skipDates : List String
  lastChecked : List (String × Nat)
  checkResults : List (String × String)
deriving DecidableEq, Repr

/-- In-cycle state threaded through the entry loop, together with the
dispatch calls the cycle makes: `postNotification(message, users)` calls
in order, and the `announcements` queue drained at the end of the loop. -/
structure LoopState where
  lastChecked : List (String × Nat)
  checkResults : List (String × String)
  notifications : List (String × Option (List String))
  announcements : List (String × Bool)
deriving DecidableEq, Repr

/-- The dispatch calls of one cycle. -/
structure Effects where
  notifications : List (String × Option (List String))
  announcements : List (String × Bool)
deriving DecidableEq, Repr

/-- `NOTIFY_WINDOW = 30 * 60` seconds. -/
def NOTIFY_WINDOW : Nat := 30 * 60

/-- `CHECK_THROTTLE = 5 * 60 * 1000` milliseconds. -/
def CHECK_THROTTLE : Nat := 5 * 60 * 1000

/-- `departureKey(entry)`: `source|destination|departureTime|today`. -/
def departureKey (e : WatchEntry) (todayStr : String) : String :=
  e.source ++ "|" ++ e.destination ++ "|" ++ e.departureTime ++ "|" ++ todayStr

/-- `days && !days.includes(today)` — skip when a day list is present and
today's weekday is not in it. -/
def daysSkip (days : Option (List String)) (todayDow : String) : Bool :=
  match days with
  | some ds => !(ds.contains todayDow)
  | none => false

/-- The three `continue` guards in front of a check: day filter, notify
window (`secsUntil < 0 || secsUntil > NOTIFY_WINDOW`), and the
5-minute throttle on the departure key.  (`Date.now() - last` is clamped
at 0 by Nat subtraction; a negative JS difference is below the throttle
exactly when the clamped one is.) -/
def entrySkipped (env : Env) (st : LoopState) (e : WatchEntry) : Bool :=
  daysSkip e.days env.todayDow ||
  (let secsUntil : Int := (timeSecs e.departureTime : Int) - (env.nowSecs : Int)
   decide (secsUntil < 0) || decide ((NOTIFY_WINDOW : Int) < secsUntil)) ||
  decide (env.nowMs - ((List.lookup (departureKey e env.todayStr) st.lastChecked).getD 0)
    < CHECK_THROTTLE)

/-- The success-path record-and-dispatch tail of the loop body: store the
message under the key, post the notification, and queue the announcement
when the entry's audio flag is set. -/
def recordAndDispatch (st : LoopState) (key : String) (msg : String) (e : WatchEntry) :
    LoopState :=
  { st with
    checkResults := setA st.checkResults key msg
    notifications := st.notifications ++ [(msg, e.users)]
    announcements := st.announcements ++ (if e.audio then [(msg, true)] else []) }

/-- The loop body after the guards: stamp the throttle slot, run the
check, then dispatch.  A failed check is notified unconditionally; a
successful one is suppressed when the recorded message for the key is
truthy (non-empty) and identical (`existing && existing === message`). -/
def runEntryChecked (env : Env) (check : WatchEntry → CheckResult) (st : LoopState)
    (e : WatchEntry) : LoopState :=
  let key := departureKey e env.todayStr
  let st1 := { st with lastChecked := setA st.lastChecked key env.nowMs }
  let r := check e
  if r.success = false then
    { st1 with notifications := st1.notifications ++ [(r.message, e.users)] }
  else
    match List.lookup key st1.checkResults with
    | some prev =>
      if !(prev == "") && prev == r.message then st1
      else recordAndDispatch st1 key r.message e
    | none => recordAndDispatch st1 key r.message e

/-- One iteration of `for (const entry of config)` in `runChecks`. -/
def runEntry (env : Env) (check : WatchEntry → CheckResult) (st : LoopState)
    (e : WatchEntry) : LoopState :=
  if entrySkipped env st e then st else runEntryChecked env check st e

/-- The outcome of one `runChecks` invocation: either `process.exit(1)`
or the updated monitoring state plus the dispatch calls made. -/
inductive CycleResult where
  | exited : CycleResult
  | done : MonitorState → Effects → CycleResult
deriving DecidableEq, Repr

/-- The global gate at the head of `runChecks`:
`snoozeUntil && dayjs().isBefore(snoozeUntil)`, or today being in
`skipDates`. -/
def gateClosed (env : Env) (st : MonitorState) : Bool :=
  (match st.snoozeUntil with
   | some t => decide (env.nowMs < t)
   | none => false) ||
  st.skipDates.contains env.todayStr

/-- The entry loop plus end-of-cycle housekeeping (given that the gate is
open, the index loaded and the config parsed): fold the entries, then
prune `lastChecked` keys not ending in `|today` and `skipDates` strictly
before today (JS `<` on YYYYMMDD strings is lexicographic, as here). -/
def runCycleBody (env : Env) (check : WatchEntry → CheckResult)
    (entries : List WatchEntry) (st : MonitorState) : CycleResult :=
  let ls0 : LoopState :=
    { lastChecked := st.lastChecked, checkResults := st.checkResults
      notifications := [], announcements := [] }
  let ls := entries.foldl (runEntry env check) ls0
  let lastChecked' := ls.lastChecked.filter (fun kv => strEndsWith kv.fst ("|" ++ env.todayStr))
  let skipDates' := st.skipDates.filter (fun d => !(strLt d env.todayStr))
  CycleResult.done
    { snoozeUntil := st.snoozeUntil, skipDates := skipDates'
      lastChecked := lastChecked', checkResults := ls.checkResults }
    { notifications := ls.notifications, announcements := ls.announcements }

/-- `runChecks` with the per-entry check abstracted: gate, config load
(`none` models a config.json parse failure, which returns early), loop
and housekeeping. -/
def runCycleWith (env : Env) (check : WatchEntry → CheckResult)
    (config : Option (List WatchEntry)) (st : MonitorState) : CycleResult :=
  if gateClosed env st then CycleResult.done st { notifications := [], announcements := [] }
  else
    match config with
    | none => CycleResult.done st { notifications := [], announcements := [] }
    | some entries => runCycleBody env check entries st

/-- `runChecks` from index.js: the global gate, then the static-index
build (`ensureStaticGtfs` + `loadStaticGtfs`; `none` models a failure,
on which the code calls `process.exit(1)`), then config load, entry loop
and housekeeping.  Each per-entry check runs `checkDeparture` against
the loaded index and the cycle's feed-fetch outcome. -/
def runCycle (env : Env) (load : Option GtfsData) (feed : Except String Feed)
    (config : Option (List WatchEntry)) (st : MonitorState) : CycleResult :=
  if gateClosed env st then CycleResult.done st { notifications := [], announcements := [] }
  else
    match load with
    | none => CycleResult.exited
    | some g =>
      match config with
      | none => CycleResult.done st { notifications := [], announcements := [] }
      | some entries =>
        runCycleBody env (fun e => checkDeparture e g feed env.today) entries st

/-- `POST /snooze`: `snoozeUntil = dayjs().add('1', 'day')`, one calendar
day ahead of now (24 hours in the time-zone-naive model). -/
def snoozeOp (nowMs : Nat) : Nat := nowMs + 24 * 3600 * 1000

/-! ### Claim-side formulations

These restate spec sentences in the spec's own words, for comparison
with the code-derived definitions above. -/

/-- The candidate condition exactly as the claim for `findMatchingTrips`
words it: the trip contains SOME stop in the source set whose departure
is within tolerance of the target, and some stop strictly after that one
(in sequence order) is in the destination set. -/
def claimTripOk (srcIds dstIds : List String) (deptSecs : Int) (sorted : List StopTime) :
    Prop :=
  ∃ i : Fin sorted.length,
    srcIds.contains (sorted.get i).stop_id = true ∧
    ((gtfsTimeSecs (sorted.get i).departure_time : Int) - deptSecs).natAbs ≤
      DEPARTURE_TOLERANCE ∧
    ∃ j : Fin sorted.length, (i : Nat) < (j : Nat) ∧
      dstIds.contains (sorted.get j).stop_id = true

/-- The amended candidate condition: the FIRST stop (in stop-sequence
order) belonging to the source set must be within tolerance, and the
destination-set stop must lie strictly after that first source stop. -/
def amendedTripOk (srcIds dstIds : List String) (deptSecs : Int) (sorted : List StopTime) :
    Prop :=
  ∃ i : Fin sorted.length,
    srcIds.contains (sorted.get i).stop_id = true ∧
    (∀ k : Fin sorted.length, (k : Nat) < (i : Nat) →
      srcIds.contains (sorted.get k).stop_id = false) ∧
    ((gtfsTimeSecs (sorted.get i).departure_time : Int) - deptSecs).natAbs ≤
      DEPARTURE_TOLERANCE ∧
    ∃ j : Fin sorted.length, (i : Nat) < (j : Nat) ∧
      dstIds.contains (sorted.get j).stop_id = true

/-- Selector for a feed entity carrying a trip update for `tripId`. -/
def tripEntSel (tripId : String) (e : FeedEnt) : Option TripUpdate :=
  match e.tripUpdate with
  | some tu => if tu.tripId == tripId then some tu else none
  | none => none

deriving instance DecidableEq for Except

instance claimTripOkDec (srcIds dstIds : List String) (deptSecs : Int)
    (sorted : List StopTime) : Decidable (claimTripOk srcIds dstIds deptSecs sorted) := by
  unfold claimTripOk
  exact inferInstance

instance amendedTripOkDec (srcIds dstIds : List String) (deptSecs : Int)
    (sorted : List StopTime) : Decidable (amendedTripOk srcIds dstIds deptSecs sorted) := by
  unfold amendedTripOk
  exact inferInstance

/-- The trip-update entity `getTripDelay`'s scan settles on: the first
entity whose trip update carries the queried trip id. -/
def findTripEnt (feed : Feed) (tripId : String) : Option TripUpdate :=
  feed.entity.findSome? (tripEntSel tripId)

/-- "round `|seconds|/60` to the nearest minute" (ties round up). -/
def roundNearestMinute (secs : Nat) : Nat := (secs + 30) / 60

/-- "pluralize": "1 minute", "n minutes" otherwise. -/
def pluralizeMinutes (mins : Nat) : String :=
  toString mins ++ " minute" ++ (if mins = 1 then "" else "s")

/-- `formatDelay` as the spec words it: `|seconds| < 60` → "on time";
otherwise round `|seconds|/60` to the nearest minute, pluralize, and
suffix "late" if seconds > 0 else "early". -/
def formatDelayAsSpecified (s : Int) : String :=
  if s.natAbs < 60 then "on time"
  else
    pluralizeMinutes (roundNearestMinute s.natAbs) ++
      (if 0 < s then " late" else " early")

/-! ### Concrete schedules, feeds and states used by witnesses and
counterexamples -/

/-- Penn Station stop row. -/
def pennStop : Stop := { stop_id := "237", stop_name := "Penn Station" }

/-- Mineola stop row. -/
def mineolaStop : Stop := { stop_id := "M", stop_name := "Mineola" }

/-- Stop times of the 8:15 Penn Station → Mineola trip. -/
def stsW : List StopTime :=
  [{ trip_id := "t1", stop_id := "237", stop_sequence := 1
     arrival_time := "08:15:00", departure_time := "08:15:00" },
   { trip_id := "t1", stop_id := "M", stop_sequence := 2
     arrival_time := "08:52:00", departure_time := "08:52:00" }]

/-- A small schedule index holding that one trip, on a weekday service. -/
def gW : GtfsData :=
  { stopsByName := [("penn station", [pennStop]), ("mineola", [mineolaStop])]
    stopsById := [("237", pennStop), ("M", mineolaStop)]
    stopTimesByTrip := [("t1", stsW)]
    tripsById := [("t1", { trip_id := "t1", service_id := "wk" })]
    calByService := [("wk",
      { service_id := "wk", monday := "1", tuesday := "1", wednesday := "1"
        thursday := "1", friday := "1", saturday := "0", sunday := "0"
        start_date := 20260101, end_date := 20261231 })]
    calDatesByService := [] }

/-- A Monday inside the service range of `gW`. -/
def todayW : Today := { dateNum := 20260216, dayName := Weekday.monday }

/-- A stop-time update reporting a 185-second departure delay at Penn
Station. -/
def stuW : StopTimeUpdate :=
  { stopId := "237", departureDelay := some 185, arrivalDelay := none }

/-- The trip update the feed carries for trip t1. -/
def tuW : TripUpdate := { tripId := "t1", stopTimeUpdate := [stuW] }

/-- The feed of the end-to-end scenario. -/
def feedW : Feed := { entity := [{ tripUpdate := some tuW }] }

/-- The watch entry of the end-to-end scenario. -/
def entryW : WatchEntry :=
  { source := "Penn Station", destination := "Mineola", departureTime := "08:15"
    days := some ["mon"], users := some ["alice"], audio := true }

/-- A Monday 07:50 clock reading (28200 seconds past midnight). -/
def envW : Env :=
  { nowMs := 1000000000, nowSecs := 28200, todayStr := "20260216", todayDow := "mon"
    today := todayW }

/-- The status message the end-to-end scenario produces. -/
def msgW : String := "8:15 AM train, from Penn Station to Mineola, is 3 minutes late."

/-- Stop times of a trip that visits TWO source-set stops: the first
(sequence 1) departs 07:00:00, far from the target, the second
(sequence 2) departs 08:15:00, exactly on target; a destination stop
follows. -/
def stsCex : List StopTime :=
  [{ trip_id := "t1", stop_id := "a1", stop_sequence := 1
     arrival_time := "07:00:00", departure_time := "07:00:00" },
   { trip_id := "t1", stop_id := "a2", stop_sequence := 2
     arrival_time := "08:15:00", departure_time := "08:15:00" },
   { trip_id := "t1", stop_id := "b1", stop_sequence := 3
     arrival_time := "08:45:00", departure_time := "08:45:00" }]

/-- A schedule in which both "Alpha" platforms share the queried name, so
the source-stop set is {a1, a2}. -/
def gCex : GtfsData :=
  { stopsByName :=
      [("alpha", [{ stop_id := "a1", stop_name := "Alpha" },
                  { stop_id := "a2", stop_name := "Alpha" }]),
       ("beta", [{ stop_id := "b1", stop_name := "Beta" }])]
    stopsById :=
      [("a1", { stop_id := "a1", stop_name := "Alpha" }),
       ("a2", { stop_id := "a2", stop_name := "Alpha" }),
       ("b1", { stop_id := "b1", stop_name := "Beta" })]
    stopTimesByTrip := [("t1", stsCex)]
    tripsById := [("t1", { trip_id := "t1", service_id := "svc" })]
    calByService := [("svc",
      { service_id := "svc", monday := "1", tuesday := "1", wednesday := "1"
        thursday := "1", friday := "1", saturday := "1", sunday := "1"
        start_date := 20200101, end_date := 20301231 })]
    calDatesByService := [] }

/-- A Monday inside the service range of `gCex`. -/
def todayCex : Today := { dateNum := 20260105, dayName := Weekday.monday }

/-- The matched trip `findMatchingTrips` derives from `gW` for the
end-to-end query. -/
def mtW : MatchedTrip :=
  { tripId := "t1", srcStopId := "237", srcStopName := "Penn Station"
    dstStopId := "M", dstStopName := "Mineola"
    scheduledDep := "08:15:00", scheduledArr := "08:52:00" }

/-- A schedule carrying only a calendar exception (service added on
20260105) and no weekly calendar row at all. -/
def gExc : GtfsData :=
  { stopsByName := [], stopsById := [], stopTimesByTrip := [], tripsById := []
    calByService := []
    calDatesByService :=
      [("s1", [{ service_id := "s1", date := 20260105, exception_type := "1" }])] }

/-- An error message as `checkDeparture` produces on a failed check. -/
def errMsgC3 : String := "Error finding trips: boom"

/-- A check that fails every time (matcher error). -/
def checkFailC3 : WatchEntry → CheckResult :=
  fun _ => { success := false, message := errMsgC3 }

/-- A check that succeeds with a fixed message. -/
def checkSuccC3 : WatchEntry → CheckResult :=
  fun _ => { success := true, message := "msg" }

/-- A watch entry with the audio flag set and a notification user. -/
def entryC3 : WatchEntry :=
  { source := "A", destination := "B", departureTime := "08:15"
    days := none, users := some ["u"], audio := true }

/-- A clock reading at which `entryC3` is inside the notify window. -/
def envC3 : Env :=
  { nowMs := 10000000, nowSecs := 28200, todayStr := "20260105", todayDow := "mon"
    today := todayCex }

/-- The empty in-cycle loop state. -/
def lsEmpty : LoopState :=
  { lastChecked := [], checkResults := [], notifications := [], announcements := [] }

/-- A loop state whose dedup map already records "msg" for `entryC3`'s
departure key. -/
def lsPrev : LoopState :=
  { lastChecked := [], checkResults := [(departureKey entryC3 "20260105", "msg")]
    notifications := [], announcements := [] }

/-- A mid-run monitoring state: a check was recorded on a previous cycle
(for a prior date, 20260104). -/
def stC4 : MonitorState :=
  { snoozeUntil := none, skipDates := []
    lastChecked := [("A|B|08:15|20260104", 5)]
    checkResults := [("A|B|08:15|20260104", "old message")] }

/-- A clock reading on 20260105 with the gate open. -/
def envC4 : Env :=
  { nowMs := 123456, nowSecs := 28200, todayStr := "20260105", todayDow := "mon"
    today := todayCex }

/-- A snoozed state that also still holds a stale throttle entry from
20260104 and a past skip date. -/
def stC6 : MonitorState :=
  { snoozeUntil := some 999999999999, skipDates := ["20260101"]
    lastChecked := [("A|B|08:15|20260104", 5)], checkResults := [] }

/-- A clock reading on 20260105 well before `stC6`'s snooze cutoff. -/
def envC6 : Env :=
  { nowMs := 1000, nowSecs := 0, todayStr := "20260105", todayDow := "mon"
    today := todayCex }

/-- A gate-open state holding a past and a future skip date plus a stale
throttle entry, for exercising housekeeping. -/
def stW6 : MonitorState :=
  { snoozeUntil := none, skipDates := ["20260101", "20270101"]
    lastChecked := [("X|Y|07:00|20260104", 7)], checkResults := [] }

/-- State right after `snooze()` ran at clock time 1000. -/
def stSnooze : MonitorState :=
  { snoozeUntil := some (snoozeOp 1000), skipDates := [], lastChecked := []
    checkResults := [] }

/-- A clock reading 23 hours after the snooze at time 1000. -/
def envSn23 : Env :=
  { nowMs := 1000 + 23 * 3600 * 1000, nowSecs := 0, todayStr := "20260105"
    todayDow := "mon", today := todayCex }

/-- A clock reading 25 hours after the snooze at time 1000. -/
def envSn25 : Env :=
  { nowMs := 1000 + 25 * 3600 * 1000, nowSecs := 0, todayStr := "20260105"
    todayDow := "mon", today := todayCex }

/-! ### Helper lemmas -/

theorem lookup_setA {α : Type} (l : List (String × α)) (k : String) (v : α) :
    List.lookup k (setA l k v) = some v := by
  induction l with
  | nil => simp [setA, List.lookup]
  | cons hd tl ih =>
    obtain ⟨k', v'⟩ := hd
    cases h : k' == k with
    | true => simp [setA, h, List.lookup]
    | false =>
      have h2 : (k == k') = false := by
        rw [beq_eq_false_iff_ne] at h ⊢
        exact fun hh => h hh.symm
      simp [setA, h, List.lookup, h2, ih]

theorem findSrcSt_eq_none_iff (s : List String) (l : List StopTime) :
    findSrcSt s l = none ↔ ∀ st ∈ l, s.contains st.stop_id = false := by
  induction l with
  | nil => simp [findSrcSt]
  | cons hd tl ih =>
    cases hc : s.contains hd.stop_id with
    | true =>
      simp only [findSrcSt]
      rw [if_pos hc]
      constructor
      · intro h; exact Option.noConfusion h
      · intro h
        rw [h hd (List.mem_cons_self hd tl)] at hc
        exact Bool.noConfusion hc
    | false =>
      have hcne : ¬ (s.contains hd.stop_id = true) := by
        intro hh; rw [hh] at hc; exact Bool.noConfusion hc
      simp only [findSrcSt]
      rw [if_neg hcne, Option.map_eq_none', ih, List.forall_mem_cons]
      constructor
      · intro h; exact ⟨hc, h⟩
      · intro h; exact h.2

theorem findSrcSt_eq_some_spec (s : List String) :
    ∀ (l : List StopTime) (i : Nat) (st : StopTime), findSrcSt s l = some (i, st) →
      ∃ hi : i < l.length, l.get ⟨i, hi⟩ = st ∧ s.contains st.stop_id = true ∧
        ∀ (k : Nat) (hk : k < l.length), k < i →
          s.contains (l.get ⟨k, hk⟩).stop_id = false := by
  intro l
  induction l with
  | nil => intro i st h; exact Option.noConfusion h
  | cons hd tl ih =>
    intro i st h
    cases hc : s.contains hd.stop_id with
    | true =>
      simp only [findSrcSt] at h
      rw [if_pos hc] at h
      injection h with h0
      injection h0 with ha hb
      subst ha
      subst hb
      refine ⟨Nat.succ_pos _, rfl, hc, ?_⟩
      intro k hk hk0
      omega
    | false =>
      have hcne : ¬ (s.contains hd.stop_id = true) := by
        intro hh; rw [hh] at hc; exact Bool.noConfusion hc
      simp only [findSrcSt] at h
      rw [if_neg hcne, Option.map_eq_some'] at h
      obtain ⟨⟨j, st2⟩, hj, hji⟩ := h
      injection hji with ha hb
      subst ha
      subst hb
      obtain ⟨hij, hget, hcs, hmin⟩ := ih j st2 hj
      refine ⟨Nat.succ_lt_succ hij, hget, hcs, ?_⟩
      intro k hk hklt
      cases k with
      | zero => exact hc
      | succ k2 =>
        exact hmin k2 (Nat.lt_of_succ_lt_succ hk) (Nat.lt_of_succ_lt_succ hklt)

theorem least_src_idx_eq (srcIds : List String) (sorted : List StopTime) (i : Nat)
    (hi : i < sorted.length)
    (hci : srcIds.contains (sorted.get ⟨i, hi⟩).stop_id = true)
    (hmin : ∀ (k : Nat) (hk : k < sorted.length), k < i →
      srcIds.contains (sorted.get ⟨k, hk⟩).stop_id = false)
    (i0 : Fin sorted.length)
    (hci0 : srcIds.contains (sorted.get i0).stop_id = true)
    (hmin0 : ∀ k : Fin sorted.length, (k : Nat) < (i0 : Nat) →
      srcIds.contains (sorted.get k).stop_id = false) :
    (i0 : Nat) = i := by
  rcases Nat.lt_trichotomy (i0 : Nat) i with hlt | heq | hgt
  · have h2 := hmin (i0 : Nat) i0.isLt hlt
    have h3 : sorted.get ⟨(i0 : Nat), i0.isLt⟩ = sorted.get i0 := rfl
    rw [h3, hci0] at h2
    exact Bool.noConfusion h2
  · exact heq
  · have h2 := hmin0 ⟨i, hi⟩ hgt
    rw [hci] at h2
    exact Bool.noConfusion h2

theorem matchTrip_isSome_iff (source destination : String) (srcIds dstIds : List String)
    (deptSecs : Int) (g : GtfsData) (today : Today) (tripId : String) (sts : List StopTime) :
    (matchTrip source destination srcIds dstIds deptSecs g today tripId sts).isSome = true ↔
      (amendedTripOk srcIds dstIds deptSecs (sortBySeq sts) ∧
       ∃ t, List.lookup tripId g.tripsById = some t ∧
         isServiceActive t.service_id g today = true) := by
  simp only [matchTrip]
  cases hfs : findSrcSt srcIds (sortBySeq sts) with
  | none =>
    simp only [Option.isSome_none]
    constructor
    · intro h; exact Bool.noConfusion h
    · rintro ⟨⟨i0, hci0, _, _, _⟩, _⟩
      rw [findSrcSt_eq_none_iff] at hfs
      have hmem : (sortBySeq sts).get i0 ∈ sortBySeq sts := by
        rw [List.get_eq_getElem]
        exact List.getElem_mem i0.isLt
      rw [hfs _ hmem] at hci0
      exact Bool.noConfusion hci0
  | some p =>
    obtain ⟨i, srcSt⟩ := p
    obtain ⟨hi, hget, hcs, hmin⟩ := findSrcSt_eq_some_spec srcIds (sortBySeq sts) i srcSt hfs
    simp only []
    by_cases htol : DEPARTURE_TOLERANCE <
        ((gtfsTimeSecs srcSt.departure_time : Int) - deptSecs).natAbs
    · rw [if_pos htol]
      simp only [Option.isSome_none]
      constructor
      · intro h; exact Bool.noConfusion h
      · rintro ⟨⟨i0, hci0, hmin0, htol0, _⟩, _⟩
        have hieq : (i0 : Nat) = i :=
          least_src_idx_eq srcIds (sortBySeq sts) i hi (hget ▸ hcs) hmin i0 hci0 hmin0
        have hgeteq : (sortBySeq sts).get i0 = srcSt := by
          rw [← hget]
          congr 1
          exact Fin.ext hieq
        rw [hgeteq] at htol0
        omega
    · rw [if_neg htol]
      cases hfind : ((sortBySeq sts).drop (i + 1)).find?
          (fun st => dstIds.contains st.stop_id) with
      | none =>
        simp only [Option.isSome_none]
        constructor
        · intro h; exact Bool.noConfusion h
        · rintro ⟨⟨i0, hci0, hmin0, htol0, j0, hij0, hcj0⟩, _⟩
          have hieq : (i0 : Nat) = i :=
            least_src_idx_eq srcIds (sortBySeq sts) i hi (hget ▸ hcs) hmin i0 hci0 hmin0
          rw [List.find?_eq_none] at hfind
          have hjmem : (sortBySeq sts).get j0 ∈ (sortBySeq sts).drop (i + 1) := by
            rw [List.mem_drop_iff_getElem]
            refine ⟨(j0 : Nat) - (i + 1), by omega, ?_⟩
            have hidxeq : (i + 1) + ((j0 : Nat) - (i + 1)) = (j0 : Nat) := by omega
            simp only [hidxeq, List.get_eq_getElem]
          have := hfind _ hjmem
          rw [hcj0] at this
          exact absurd rfl this
      | some dstSt =>
        cases hlook : List.lookup tripId g.tripsById with
        | none =>
          simp only [Option.isSome_none]
          constructor
          · intro h; exact Bool.noConfusion h
          · rintro ⟨_, t, hl, _⟩
            exact Option.noConfusion hl
        | some trip =>
          cases hact : isServiceActive trip.service_id g today with
          | true =>
            simp [hact]
            refine ⟨⟨i, hi⟩, ?_, ?_, ?_, ?_⟩
            · rw [hget]; exact hcs
            · intro k hk
              exact hmin (k : Nat) k.isLt hk
            · rw [hget]
              omega
            · have hdmem := List.mem_of_find?_eq_some hfind
              have hdc := List.find?_some hfind
              rw [List.mem_drop_iff_getElem] at hdmem
              obtain ⟨k, hk, hgetk⟩ := hdmem
              refine ⟨⟨(i + 1) + k, by omega⟩, by show i < (i + 1) + k; omega, ?_⟩
              rw [List.get_eq_getElem]
              simp only [hgetk]
              exact hdc
          | false =>
            simp [hact]

theorem matchTrip_tripId (source destination : String) (srcIds dstIds : List String)
    (deptSecs : Int) (g : GtfsData) (today : Today) (tid : String) (sts : List StopTime)
    (mt : MatchedTrip)
    (h : matchTrip source destination srcIds dstIds deptSecs g today tid sts = some mt) :
    mt.tripId = tid := by
  simp only [matchTrip] at h
  cases hfs : findSrcSt srcIds (sortBySeq sts) with
  | none => rw [hfs] at h; exact Option.noConfusion h
  | some p =>
    obtain ⟨i, srcSt⟩ := p
    rw [hfs] at h
    simp only [] at h
    by_cases htol : DEPARTURE_TOLERANCE <
        ((gtfsTimeSecs srcSt.departure_time : Int) - deptSecs).natAbs
    · rw [if_pos htol] at h; exact Option.noConfusion h
    · rw [if_neg htol] at h
      cases hfind : ((sortBySeq sts).drop (i + 1)).find?
          (fun st => dstIds.contains st.stop_id) with
      | none => rw [hfind] at h; exact Option.noConfusion h
      | some dstSt =>
        rw [hfind] at h
        simp only [] at h
        cases hlook : List.lookup tid g.tripsById with
        | none => rw [hlook] at h; exact Option.noConfusion h
        | some trip =>
          rw [hlook] at h
          simp only [] at h
          cases hact : isServiceActive trip.service_id g today with
          | true =>
            rw [if_pos hact] at h
            injection h with h2
            rw [← h2]
          | false =>
            have hactne : ¬ (isServiceActive trip.service_id g today = true) := by
              intro hh; rw [hh] at hact; exact Bool.noConfusion hact
            rw [if_neg hactne] at h
            exact Option.noConfusion h

theorem assoc_mem_unique {β : Type} {l : List (String × β)}
    (h : (l.map Prod.fst).Nodup) {k : String} {v w : β}
    (hv : (k, v) ∈ l) (hw : (k, w) ∈ l) : v = w := by
  induction l with
  | nil => cases hv
  | cons hd tl ih =>
    rw [List.map_cons, List.nodup_cons] at h
    rcases List.mem_cons.mp hv with h1 | h1
    · rcases List.mem_cons.mp hw with h2 | h2
      · rw [← h1] at h2
        injection h2 with _ h3
        exact h3.symm
      · exfalso
        apply h.1
        have hmm : (k, w).fst ∈ tl.map Prod.fst := List.mem_map_of_mem Prod.fst h2
        rw [← h1]
        exact hmm
    · rcases List.mem_cons.mp hw with h2 | h2
      · exfalso
        apply h.1
        have : (k, v).fst ∈ tl.map Prod.fst := List.mem_map_of_mem Prod.fst h1
        simpa [← h2] using this
      · exact ih h.2 h1 h2

theorem getTripDelayGo_none (tripId stopId : String) :
    ∀ l : List FeedEnt, l.findSome? (tripEntSel tripId) = none →
      getTripDelayGo tripId stopId l = { found := false, delay := 0 } := by
  intro l
  induction l with
  | nil => intro _; rfl
  | cons e rest ih =>
    intro h
    rw [List.findSome?_cons] at h
    cases he : e.tripUpdate with
    | none =>
      simp only [tripEntSel, he] at h
      simp only [getTripDelayGo, he]
      exact ih h
    | some tu =>
      cases htid : tu.tripId == tripId with
      | true => simp [tripEntSel, he, htid] at h
      | false =>
        simp only [tripEntSel, he, htid] at h
        simp only [getTripDelayGo, he, bne, htid]
        exact ih h

theorem getTripDelayGo_some (tripId stopId : String) :
    ∀ (l : List FeedEnt) (tu : TripUpdate), l.findSome? (tripEntSel tripId) = some tu →
      getTripDelayGo tripId stopId l =
        (match tu.stopTimeUpdate.find? (fun stu => stu.stopId == stopId) with
         | some stu => { found := true, delay := stuDelay stu }
         | none => { found := true, delay := 0 }) := by
  intro l
  induction l with
  | nil => intro tu h; simp [List.findSome?] at h
  | cons e rest ih =>
    intro tu h
    rw [List.findSome?_cons] at h
    cases he : e.tripUpdate with
    | none =>
      simp only [tripEntSel, he] at h
      simp only [getTripDelayGo, he]
      exact ih tu h
    | some tu2 =>
      cases htid : tu2.tripId == tripId with
      | true =>
        simp only [tripEntSel, he, htid, if_true] at h
        injection h with h'
        subst h'
        simp only [getTripDelayGo, he, bne, htid, Bool.not_true, if_neg]
        rfl
      | false =>
        simp only [tripEntSel, he, htid, if_false] at h
        simp only [getTripDelayGo, he, bne, htid]
        exact ih tu h

theorem formatDelay_eq_spec (s : Int) : formatDelay s = formatDelayAsSpecified s := by
  unfold formatDelay formatDelayAsSpecified pluralizeMinutes roundNearestMinute
  by_cases h : s.natAbs < 60
  · simp [h]
  · by_cases h2 : (0 : Int) < s <;> by_cases h1 : (s.natAbs + 30) / 60 = 1 <;>
      simp [h, h1, h2]

/-! ### The claims -/

/-- C1 counterexample: the claim's candidate condition (SOME source-set
stop within tolerance with a destination-set stop after it) holds for
trip t1 of `gCex`, whose service is active, yet `findMatchingTrips`
returns no trips: the code only examines the FIRST source-set stop in
sequence order (07:00:00, outside tolerance of the 08:15:00 target), so
the claimed if-and-only-if fails. -/
theorem claim1_counterexample :
    claimTripOk ((findStops "alpha" gCex).map Stop.stop_id)
      ((findStops "beta" gCex).map Stop.stop_id) 29700 (sortBySeq stsCex) ∧
    ("t1", stsCex) ∈ gCex.stopTimesByTrip ∧
    (∃ t, List.lookup "t1" gCex.tripsById = some t ∧
      isServiceActive t.service_id gCex todayCex = true) ∧
    findMatchingTrips "alpha" "beta" 29700 gCex todayCex = Except.ok [] := by decide

/-- C1 amended: a trip of the index is returned (exactly once its id is
looked up among the results) if and only if the FIRST stop in
stop-sequence order that lies in the source-stop set exists, departs
within 300 seconds of the target, some stop strictly after it lies in
the destination-stop set, the trip has a row in the trips table and its
service is active on the query date; all such trips are returned with no
limit.  Hypotheses: the queried trip is one of the index's stop-time
groups, trip ids are unique (JS object keys), and the query resolved
both stop names. -/
theorem claim1_amended (source destination : String) (deptSecs : Int) (g : GtfsData)
    (today : Today) (tripId : String) (sts : List StopTime) (res : List MatchedTrip)
    (hmem : (tripId, sts) ∈ g.stopTimesByTrip)
    (hnodup : (g.stopTimesByTrip.map Prod.fst).Nodup)
    (hres : findMatchingTrips source destination deptSecs g today = Except.ok res) :
    (∃ mt ∈ res, mt.tripId = tripId) ↔
      (amendedTripOk ((findStops source g).map Stop.stop_id)
        ((findStops destination g).map Stop.stop_id) deptSecs (sortBySeq sts) ∧
       ∃ t, List.lookup tripId g.tripsById = some t ∧
         isServiceActive t.service_id g today = true) := by
  have hres2 : res = g.stopTimesByTrip.filterMap (fun p =>
      matchTrip source destination ((findStops source g).map Stop.stop_id)
        ((findStops destination g).map Stop.stop_id) deptSecs g today p.fst p.snd) := by
    simp only [findMatchingTrips] at hres
    by_cases h1 : (findStops source g).isEmpty = true
    · rw [if_pos h1] at hres; exact Except.noConfusion hres
    · rw [if_neg h1] at hres
      by_cases h2 : (findStops destination g).isEmpty = true
      · rw [if_pos h2] at hres; exact Except.noConfusion hres
      · rw [if_neg h2] at hres
        injection hres with h3
        exact h3.symm
  subst hres2
  constructor
  · rintro ⟨mt, hmt, htid⟩
    rw [List.mem_filterMap] at hmt
    obtain ⟨p, hp, hsome⟩ := hmt
    have htid2 : mt.tripId = p.fst :=
      matchTrip_tripId source destination _ _ deptSecs g today p.fst p.snd mt hsome
    have hpfst : p.fst = tripId := by rw [← htid2, htid]
    have hpmem : (tripId, p.snd) ∈ g.stopTimesByTrip := by
      rw [← hpfst, Prod.mk.eta]
      exact hp
    have hsnd : p.snd = sts := assoc_mem_unique hnodup hpmem hmem
    have hsome2 : matchTrip source destination ((findStops source g).map Stop.stop_id)
        ((findStops destination g).map Stop.stop_id) deptSecs g today tripId sts =
        some mt := by
      rw [← hpfst, ← hsnd]
      exact hsome
    have hs : (matchTrip source destination ((findStops source g).map Stop.stop_id)
        ((findStops destination g).map Stop.stop_id) deptSecs g today tripId
        sts).isSome = true := by
      rw [hsome2]
      rfl
    exact (matchTrip_isSome_iff source destination _ _ deptSecs g today tripId sts).mp hs
  · intro hRHS
    have hs : (matchTrip source destination ((findStops source g).map Stop.stop_id)
        ((findStops destination g).map Stop.stop_id) deptSecs g today tripId
        sts).isSome = true :=
      (matchTrip_isSome_iff source destination _ _ deptSecs g today tripId sts).mpr hRHS
    obtain ⟨mt, hmt⟩ := Option.isSome_iff_exists.mp hs
    refine ⟨mt, ?_, matchTrip_tripId source destination _ _ deptSecs g today tripId sts mt hmt⟩
    rw [List.mem_filterMap]
    exact ⟨(tripId, sts), hmem, hmt⟩

/-- C1 witness: the amended characterization instantiated on the
Penn Station → Mineola schedule, where the match is returned. -/
theorem claim1_witness :
    ∃ mt ∈ [mtW], mt.tripId = "t1" :=
  (claim1_amended "Penn Station" "Mineola" 29700 gW todayW "t1" stsW [mtW]
    (by decide) (by decide) (by decide)).mpr (by decide)

/-- C2: isServiceActive returns the added/removed flag of a calendar
exception dated exactly the evaluation date whenever such an exception
exists, regardless of the weekly pattern; otherwise false when no
CalendarService row exists for the id; otherwise true exactly when the
date lies within [startDate, endDate] inclusive and the date's weekday
flag in the weekly pattern is set. -/
theorem claim2_isServiceActive :
    (∀ (sid : String) (g : GtfsData) (today : Today),
      (∃ ex ∈ exceptionsFor sid g, ex.date = today.dateNum) →
      ∃ ex ∈ exceptionsFor sid g, ex.date = today.dateNum ∧
        isServiceActive sid g today = (ex.exception_type == "1")) ∧
    (∀ (sid : String) (g : GtfsData) (today : Today),
      (∀ ex ∈ exceptionsFor sid g, ex.date ≠ today.dateNum) →
      List.lookup sid g.calByService = none →
      isServiceActive sid g today = false) ∧
    (∀ (sid : String) (g : GtfsData) (today : Today) (cal : Calendar),
      (∀ ex ∈ exceptionsFor sid g, ex.date ≠ today.dateNum) →
      List.lookup sid g.calByService = some cal →
      (isServiceActive sid g today = true ↔
        (cal.start_date ≤ today.dateNum ∧ today.dateNum ≤ cal.end_date ∧
         cal.dayFlag today.dayName = "1"))) := by
  refine ⟨?_, ?_, ?_⟩
  · intro sid g today ⟨ex, hmem, hdate⟩
    have hsome : ((exceptionsFor sid g).find? (fun e => e.date == today.dateNum)).isSome := by
      rw [List.find?_isSome]
      exact ⟨ex, hmem, by simp [hdate]⟩
    obtain ⟨ex0, hfind⟩ := Option.isSome_iff_exists.mp hsome
    refine ⟨ex0, List.mem_of_find?_eq_some hfind, ?_, ?_⟩
    · have := List.find?_some hfind
      simpa using this
    · simp only [isServiceActive, hfind]
  · intro sid g today hall hlook
    have hnone : (exceptionsFor sid g).find? (fun e => e.date == today.dateNum) = none := by
      rw [List.find?_eq_none]
      intro ex hex
      simp [hall ex hex]
    simp only [isServiceActive, hnone, hlook]
  · intro sid g today cal hall hlook
    have hnone : (exceptionsFor sid g).find? (fun e => e.date == today.dateNum) = none := by
      rw [List.find?_eq_none]
      intro ex hex
      simp [hall ex hex]
    simp only [isServiceActive, hnone, hlook]
    by_cases h1 : today.dateNum < cal.start_date
    · simp [h1]
    · by_cases h2 : cal.end_date < today.dateNum
      · simp [h1, h2]
      · have h1' := Nat.not_lt.mp h1
        have h2' := Nat.not_lt.mp h2
        simp [h1, h2, beq_iff_eq, h1', h2']

/-- C2 witness: on a schedule holding only an "added" exception for
20260105 and no weekly calendar at all, the exception decides. -/
theorem claim2_witness :
    ∃ ex ∈ exceptionsFor "s1" gExc, ex.date = todayCex.dateNum ∧
      isServiceActive "s1" gExc todayCex = (ex.exception_type == "1") :=
  claim2_isServiceActive.1 "s1" gExc todayCex (by decide)

/-- C7: getTripDelay returns found := false when no entity carries a trip
update for the queried trip; returns found := true with delay 0 when the
entity found for the trip carries no stop-time update for the queried
stop; and when it does carry one, the delay is the departure delay if
present, else the arrival delay, else 0. -/
theorem claim7_getTripDelay (feed : Feed) (tripId stopId : String) :
    ((∀ e ∈ feed.entity, ∀ tu, e.tripUpdate = some tu → tu.tripId ≠ tripId) →
      getTripDelay feed tripId stopId = { found := false, delay := 0 }) ∧
    (∀ tu, findTripEnt feed tripId = some tu →
      (∀ stu ∈ tu.stopTimeUpdate, stu.stopId ≠ stopId) →
      getTripDelay feed tripId stopId = { found := true, delay := 0 }) ∧
    (∀ tu stu, findTripEnt feed tripId = some tu →
      tu.stopTimeUpdate.find? (fun s => s.stopId == stopId) = some stu →
      getTripDelay feed tripId stopId = { found := true, delay := stuDelay stu }) := by
  refine ⟨?_, ?_, ?_⟩
  · intro h
    apply getTripDelayGo_none
    rw [List.findSome?_eq_none_iff]
    intro e he
    cases h2 : e.tripUpdate with
    | none => simp [tripEntSel, h2]
    | some tu =>
      have := h e he tu h2
      simp [tripEntSel, h2, this]
  · intro tu hfind hall
    have hnone : tu.stopTimeUpdate.find? (fun stu => stu.stopId == stopId) = none := by
      rw [List.find?_eq_none]
      intro stu hstu
      simp [hall stu hstu]
    have := getTripDelayGo_some tripId stopId feed.entity tu hfind
    rw [hnone] at this
    exact this
  · intro tu stu hfind hstu
    have := getTripDelayGo_some tripId stopId feed.entity tu hfind
    rw [hstu] at this
    exact this

/-- C7 witness: on the concrete feed, trip t1 at stop 237 yields a found
delay of 185 seconds (the departure delay of the matching update). -/
theorem claim7_witness :
    getTripDelay feedW "t1" "237" = { found := true, delay := 185 } :=
  (claim7_getTripDelay feedW "t1" "237").2.2 tuW stuW (by decide) (by decide)

/-- C3 counterexample: a failed check (with the entry's audio flag set
and gates open) posts its error message as a notification but never
reaches the announce path — the announcements queue stays empty, against
the claim that errors are dispatched through both paths. -/
theorem claim3_counterexample :
    (runEntry envC3 checkFailC3 lsEmpty entryC3).notifications =
      [(errMsgC3, some ["u"])] ∧
    (runEntry envC3 checkFailC3 lsEmpty entryC3).announcements = [] ∧
    entryC3.audio = true := by decide

/-- C3 amended: a failed check's error message is dispatched through the
notify path only (never announced), exempt from deduplication and leaving
the dedup map untouched; a successful check is suppressed entirely
exactly when its message equals the (non-empty) last recorded message for
the departure key, and otherwise the message is recorded, notified, and
announced precisely when the entry's audio flag is set. -/
theorem claim3_amended (env : Env) (check : WatchEntry → CheckResult) (st : LoopState)
    (e : WatchEntry) (hgate : entrySkipped env st e = false) :
    (∀ m, check e = { success := false, message := m } →
      (runEntry env check st e).notifications = st.notifications ++ [(m, e.users)] ∧
      (runEntry env check st e).announcements = st.announcements ∧
      (runEntry env check st e).checkResults = st.checkResults) ∧
    (∀ m, check e = { success := true, message := m } → m ≠ "" →
      List.lookup (departureKey e env.todayStr) st.checkResults = some m →
      (runEntry env check st e).notifications = st.notifications ∧
      (runEntry env check st e).announcements = st.announcements ∧
      (runEntry env check st e).checkResults = st.checkResults) ∧
    (∀ m, check e = { success := true, message := m } →
      (∀ prev, List.lookup (departureKey e env.todayStr) st.checkResults = some prev →
        prev = "" ∨ prev ≠ m) →
      (runEntry env check st e).checkResults =
        setA st.checkResults (departureKey e env.todayStr) m ∧
      (runEntry env check st e).notifications = st.notifications ++ [(m, e.users)] ∧
      (runEntry env check st e).announcements =
        st.announcements ++ (if e.audio then [(m, true)] else [])) := by
  have hre : runEntry env check st e = runEntryChecked env check st e := by
    simp [runEntry, hgate]
  refine ⟨?_, ?_, ?_⟩
  · intro m hm
    rw [hre]
    simp [runEntryChecked, hm]
  · intro m hm hne hlook
    rw [hre]
    simp only [runEntryChecked, hm]
    simp only [hlook]
    have hb : (m == "") = false := by
      rw [beq_eq_false_iff_ne]
      exact hne
    simp [hb]
  · intro m hm hprev
    rw [hre]
    simp only [runEntryChecked, hm]
    cases hlook : List.lookup (departureKey e env.todayStr) st.checkResults with
    | none => simp [hlook, recordAndDispatch]
    | some prev =>
      rcases hprev prev hlook with h0 | hne
      · subst h0
        simp [hlook, recordAndDispatch]
      · have hb : (prev == m) = false := by
          rw [beq_eq_false_iff_ne]
          exact hne
        simp [hlook, hb, recordAndDispatch]

/-- C3 witness: a second successful check whose message equals the
recorded "msg" for the key is fully suppressed. -/
theorem claim3_witness :
    (runEntry envC3 checkSuccC3 lsPrev entryC3).notifications = lsPrev.notifications ∧
    (runEntry envC3 checkSuccC3 lsPrev entryC3).announcements = lsPrev.announcements ∧
    (runEntry envC3 checkSuccC3 lsPrev entryC3).checkResults = lsPrev.checkResults :=
  (claim3_amended envC3 checkSuccC3 lsPrev entryC3 (by decide)).2.1 "msg" rfl
    (by decide) (by decide)

/-- C4 counterexample: on a later cycle (the state already carries
throttle/dedup records from a previous day) a static-index build failure
still terminates the process — the cycle is not skipped and the process
does not continue. -/
theorem claim4_counterexample :
    runCycle envC4 none (Except.ok feedW) (some [entryW]) stC4 =
      CycleResult.exited := by decide

/-- C4 amended: a static-schedule index build failure is fatal to the
process in EVERY cycle whose global gate is open — at startup and during
later monitoring cycles alike; no cycle-skipping recovery exists. -/
theorem claim4_amended (env : Env) (feed : Except String Feed)
    (config : Option (List WatchEntry)) (st : MonitorState)
    (hgate : gateClosed env st = false) :
    runCycle env none feed config st = CycleResult.exited := by
  simp [runCycle, hgate]

/-- C4 witness: the amended fatality at a concrete open-gate cycle. -/
theorem claim4_witness :
    runCycle envC4 none (Except.ok feedW) none stC4 = CycleResult.exited :=
  claim4_amended envC4 (Except.ok feedW) none stC4 (by decide)

/-- C5: while the gate is closed (now before snoozeUntil, or today in
skipDates) a cycle checks no entry at all and changes nothing; since
snooze() sets the cutoff 24 hours ahead, a cycle 23 hours after snoozing
is fully suppressed and a cycle 25 hours after snoozing passes the gate
(today not being a skip date). -/
theorem claim5_globalGate :
    (∀ (env : Env) (load : Option GtfsData) (feed : Except String Feed)
        (config : Option (List WatchEntry)) (st : MonitorState),
      ((∃ t, st.snoozeUntil = some t ∧ env.nowMs < t) ∨
        st.skipDates.contains env.todayStr = true) →
      runCycle env load feed config st =
        CycleResult.done st { notifications := [], announcements := [] }) ∧
    (∀ (tSnooze : Nat) (env : Env) (load : Option GtfsData) (feed : Except String Feed)
        (config : Option (List WatchEntry)) (st : MonitorState),
      st.snoozeUntil = some (snoozeOp tSnooze) →
      env.nowMs = tSnooze + 23 * 3600 * 1000 →
      runCycle env load feed config st =
        CycleResult.done st { notifications := [], announcements := [] }) ∧
    (∀ (tSnooze : Nat) (env : Env) (st : MonitorState),
      st.snoozeUntil = some (snoozeOp tSnooze) →
      env.nowMs = tSnooze + 25 * 3600 * 1000 →
      st.skipDates.contains env.todayStr = false →
      gateClosed env st = false) := by
  have hgate : ∀ (env : Env) (st : MonitorState),
      ((∃ t, st.snoozeUntil = some t ∧ env.nowMs < t) ∨
        st.skipDates.contains env.todayStr = true) → gateClosed env st = true := by
    intro env st h
    rcases h with ⟨t, hsu, hlt⟩ | hskip
    · simp [gateClosed, hsu, hlt]
    · simp only [gateClosed]
      rw [hskip]
      simp
  refine ⟨?_, ?_, ?_⟩
  · intro env load feed config st h
    simp [runCycle, hgate env st h]
  · intro tSnooze env load feed config st hsu hnow
    have h : gateClosed env st = true :=
      hgate env st (Or.inl ⟨snoozeOp tSnooze, hsu, by simp only [hnow, snoozeOp]; omega⟩)
    simp [runCycle, h]
  · intro tSnooze env st hsu hnow hskip
    simp only [gateClosed, hsu, hnow, snoozeOp]
    rw [hskip]
    simp

/-- C5 witness: with a snooze taken at clock time 1000, the cycle 23
hours later is fully suppressed and the gate is open 25 hours later. -/
theorem claim5_witness :
    runCycle envSn23 (some gW) (Except.ok feedW) (some [entryW]) stSnooze =
      CycleResult.done stSnooze { notifications := [], announcements := [] } ∧
    gateClosed envSn25 stSnooze = false :=
  ⟨claim5_globalGate.2.1 1000 envSn23 (some gW) (Except.ok feedW) (some [entryW])
      stSnooze rfl rfl,
   claim5_globalGate.2.2 1000 envSn25 stSnooze rfl rfl (by decide)⟩

/-- C6 counterexample: a snoozed cycle returns before housekeeping, so
neither map is pruned — the returned state still holds a throttle entry
keyed to 20260104 (not today, 20260105) and a skip date strictly before
today, against the claim that pruning happens on every poll cycle. -/
theorem claim6_counterexample :
    runCycle envC6 (some gW) (Except.ok feedW) (some [entryW]) stC6 =
      CycleResult.done stC6 { notifications := [], announcements := [] } ∧
    stC6.lastChecked = [("A|B|08:15|20260104", 5)] ∧
    strEndsWith "A|B|08:15|20260104" ("|" ++ envC6.todayStr) = false ∧
    stC6.skipDates = ["20260101"] ∧
    strLt "20260101" envC6.todayStr = true := by decide

/-- C6 amended: on every cycle that passes the global gate and loads
index and config, housekeeping leaves in lastCheckedAt only keys whose
date component is today (suffix `|today`) and in skipDates only dates not
strictly before today; a gated or aborted cycle performs no pruning. -/
theorem claim6_amended (env : Env) (g : GtfsData) (feed : Except String Feed)
    (entries : List WatchEntry) (st : MonitorState)
    (hgate : gateClosed env st = false) :
    ∃ st' eff, runCycle env (some g) feed (some entries) st = CycleResult.done st' eff ∧
      (∀ kv ∈ st'.lastChecked, strEndsWith kv.fst ("|" ++ env.todayStr) = true) ∧
      (∀ d ∈ st'.skipDates, strLt d env.todayStr = false) := by
  simp only [runCycle, hgate, Bool.false_eq_true, if_false, runCycleBody]
  refine ⟨_, _, rfl, ?_, ?_⟩
  · intro kv hkv
    exact (List.mem_filter.mp hkv).2
  · intro d hd
    have := (List.mem_filter.mp hd).2
    simpa using this

/-- C6 witness: the amended pruning guarantee at a concrete open-gate
cycle over a state holding a stale throttle key and a past skip date. -/
theorem claim6_witness :
    ∃ st' eff,
      runCycle envC4 (some gW) (Except.ok feedW) (some []) stW6 =
        CycleResult.done st' eff ∧
      (∀ kv ∈ st'.lastChecked, strEndsWith kv.fst ("|" ++ envC4.todayStr) = true) ∧
      (∀ d ∈ st'.skipDates, strLt d envC4.todayStr = false) :=
  claim6_amended envC4 gW (Except.ok feedW) [] stW6 (by decide)

/-- C10: a failed check leaves the dedup map unchanged while consuming
the throttle slot (lastCheckedAt is stamped with the current time before
the check runs, and any re-check within 5 minutes of a stamp is skipped),
and a later successful check whose message equals the last recorded
successful message for the key is dedup-suppressed despite the error
dispatches in between. -/
theorem claim10_failedCheck (env : Env) (check : WatchEntry → CheckResult) (st : LoopState)
    (e : WatchEntry) (hgate : entrySkipped env st e = false) :
    (∀ m, check e = { success := false, message := m } →
      (runEntry env check st e).checkResults = st.checkResults ∧
      List.lookup (departureKey e env.todayStr) (runEntry env check st e).lastChecked =
        some env.nowMs ∧
      (m, e.users) ∈ (runEntry env check st e).notifications) ∧
    (∀ (env2 : Env) (check2 : WatchEntry → CheckResult) (st2 : LoopState) (t : Nat),
      List.lookup (departureKey e env2.todayStr) st2.lastChecked = some t →
      env2.nowMs - t < CHECK_THROTTLE →
      runEntry env2 check2 st2 e = st2) ∧
    (∀ m, check e = { success := true, message := m } → m ≠ "" →
      List.lookup (departureKey e env.todayStr) st.checkResults = some m →
      (runEntry env check st e).notifications = st.notifications ∧
      (runEntry env check st e).announcements = st.announcements ∧
      (runEntry env check st e).checkResults = st.checkResults) := by
  have hre : runEntry env check st e = runEntryChecked env check st e := by
    simp [runEntry, hgate]
  refine ⟨?_, ?_, ?_⟩
  · intro m hm
    rw [hre]
    refine ⟨by simp [runEntryChecked, hm], ?_, by simp [runEntryChecked, hm]⟩
    simp only [runEntryChecked, hm]
    simp [lookup_setA]
  · intro env2 check2 st2 t hlook hlt
    simp [runEntry, entrySkipped, hlook, hlt]
  · intro m hm hne hlook
    rw [hre]
    simp only [runEntryChecked, hm]
    simp only [hlook]
    have hb : (m == "") = false := by
      rw [beq_eq_false_iff_ne]
      exact hne
    simp [hb]

/-- C10 witness: a concrete failed check stamps the throttle slot,
leaves the dedup map unchanged and posts the error notification. -/
theorem claim10_witness :
    (runEntry envC3 checkFailC3 lsEmpty entryC3).checkResults = lsEmpty.checkResults ∧
    List.lookup (departureKey entryC3 envC3.todayStr)
      (runEntry envC3 checkFailC3 lsEmpty entryC3).lastChecked = some envC3.nowMs ∧
    (errMsgC3, entryC3.users) ∈ (runEntry envC3 checkFailC3 lsEmpty entryC3).notifications :=
  (claim10_failedCheck envC3 checkFailC3 lsEmpty entryC3 (by decide)).1 errMsgC3 rfl

/-- C8: formatDelay(seconds) returns "on time" when |seconds| < 60 and
otherwise |seconds|/60 rounded to the nearest minute, pluralized,
suffixed "late" when seconds > 0 and "early" otherwise; in particular
formatDelay 0 = "on time", formatDelay 59 = "on time",
formatDelay 60 = "1 minute late", formatDelay (-125) = "2 minutes early". -/
theorem claim8_formatDelay :
    (∀ s : Int, formatDelay s = formatDelayAsSpecified s) ∧
    formatDelay 0 = "on time" ∧ formatDelay 59 = "on time" ∧
    formatDelay 60 = "1 minute late" ∧ formatDelay (-125) = "2 minutes early" :=
  ⟨formatDelay_eq_spec, by decide, by decide, by decide, by decide⟩

/-- C9: the watch entry (Penn Station → Mineola, 08:15, mon) checked on a
Monday at 07:50 against a schedule with a matching 08:15:00 trip whose
feed reports a 185-second delay at the origin produces exactly the
message "8:15 AM train, from Penn Station to Mineola, is 3 minutes
late.", both from checkDeparture itself and through a full cycle (day
filter, 30-minute window, throttle, dedup record, dispatch). -/
theorem claim9_endToEnd :
    checkDeparture entryW gW (Except.ok feedW) todayW =
      { success := true, message := msgW } ∧
    runCycle envW (some gW) (Except.ok feedW) (some [entryW])
        { snoozeUntil := none, skipDates := [], lastChecked := [], checkResults := [] } =
      CycleResult.done
        { snoozeUntil := none, skipDates := []
          lastChecked := [(departureKey entryW "20260216", 1000000000)]
          checkResults := [(departureKey entryW "20260216", msgW)] }
        { notifications := [(msgW, some ["alice"])], announcements := [(msgW, true)] } := by
  exact ⟨by decide, by decide⟩

end LirrChecker
